import Mathlib

/-!
Verification development for the batch request builder / batch result
parser in src/instructor/batch.py.  The Python module is shallowly
embedded: JSON values become an inductive type, json.loads becomes an
executable fuel-based decoder restricted to the grammar the development
exercises (integers only; \uXXXX escapes unused), pydantic models become
structures with explicit construction functions, and exceptions become
Option / Except results.
-/

namespace Batch

/-- JSON values as produced by json.loads.  Numbers are restricted to
integers: no part of this development involves non-integer numbers.
Objects keep their key/value pairs in source order; key lookup takes the
last binding, as a Python dict built by json.loads does. -/
inductive J where
  | null
  | bool (b : Bool)
  | num (n : Int)
  | str (s : String)
  | arr (xs : List J)
  | obj (fs : List (String × J))

/-- Last-wins lookup in an association list, matching Python dict
construction where later duplicate keys override earlier ones. -/
def lookupLast (fs : List (String × J)) (k : String) : Option J :=
  match fs with
  | [] => none
  | (k2, v) :: rest =>
    match lookupLast rest k with
    | some r => some r
    | none => if k2 = k then some v else none

/-- Python `d[k]` on a decoded JSON value: succeeds only on an object
holding the key.  Indexing a non-dict with a string key raises in Python
(TypeError / KeyError); that is modelled as none.  (Python string
indexing by int and list membership are not modelled; no input in this
development exercises them.) -/
def jGet (j : J) (k : String) : Option J :=
  match j with
  | J.obj fs => lookupLast fs k
  | _ => none

/-- Python `x[0]` on a decoded JSON value: first element of an array;
anything else is modelled as an exception (none). -/
def jIndex0 (j : J) : Option J :=
  match j with
  | J.arr (x :: _) => some x
  | _ => none

/-- Whether an association list holds a key. -/
def hasK (fs : List (String × J)) (k : String) : Bool :=
  fs.any (fun p => p.1 = k)

/-- Python `k in x` where x is expected to be a dict: some bool on a
dict, none (exception) otherwise. -/
def hasKeyO (j : J) (k : String) : Option Bool :=
  match j with
  | J.obj fs => some (hasK fs k)
  | _ => none

/-- Extract a string, as json.loads requires of its argument. -/
def asStr (j : J) : Option String :=
  match j with
  | J.str s => some s
  | _ => none

/-- Extract an object's fields, as `model(**x)` requires x to be a
mapping. -/
def asObj (j : J) : Option (List (String × J)) :=
  match j with
  | J.obj fs => some fs
  | _ => none

/-- JSON whitespace characters (RFC 8259, as accepted by json.loads). -/
def wsChar (c : Char) : Bool :=
  c = ' ' || c = '\t' || c = '\n' || c = '\r'

/-- Drop leading JSON whitespace. -/
def skipWs : List Char → List Char
  | [] => []
  | c :: cs => if wsChar c then skipWs cs else c :: cs

/-- Decoded form of a two-character escape sequence in a JSON string
(\uXXXX escapes are not modelled; no input here uses them). -/
def escChar (c : Char) : Option Char :=
  if c = '"' then some '"'
  else if c = '\\' then some '\\'
  else if c = '/' then some '/'
  else if c = 'b' then some (Char.ofNat 8)
  else if c = 'f' then some (Char.ofNat 12)
  else if c = 'n' then some '\n'
  else if c = 'r' then some '\r'
  else if c = 't' then some '\t'
  else none

/-- Body of a JSON string after the opening quote: returns the decoded
characters and the input after the closing quote.  Raw control
characters below 0x20 are rejected, as json.loads does in strict mode;
any other raw character (including U+2028) is accepted, as json.loads
does. -/
def strBody : List Char → Option (List Char × List Char)
  | [] => none
  | '"' :: cs => some ([], cs)
  | '\\' :: [] => none
  | '\\' :: e :: cs =>
    match escChar e with
    | none => none
    | some ec =>
      match strBody cs with
      | none => none
      | some (s, rest) => some (ec :: s, rest)
  | c :: cs =>
    if c.val < 32 then none
    else
      match strBody cs with
      | none => none
      | some (s, rest) => some (c :: s, rest)

/-- Leading decimal digits of a character list, and the remainder. -/
def digitsSpan : List Char → List Char × List Char
  | [] => ([], [])
  | c :: cs =>
    if c.isDigit then
      let (ds, r) := digitsSpan cs
      (c :: ds, r)
    else ([], c :: cs)

/-- Numeric value of a digit string. -/
def digitsToNat (ds : List Char) : Nat :=
  ds.foldl (fun a c => a * 10 + (c.toNat - 48)) 0

/-- Whether the remainder starts a fractional or exponent part; such
numbers decode to Python floats, which this development does not model,
so they are rejected rather than misread. -/
def floatFollows : List Char → Bool
  | [] => false
  | c :: _ => c = '.' || c = 'e' || c = 'E'

mutual

/-- One JSON value, fuel-based; returns the value and the rest of the
input.  Faithful to json.loads on the integer-only grammar. -/
def pVal : Nat → List Char → Option (J × List Char)
  | 0, _ => none
  | Nat.succ fuel, cs =>
    match skipWs cs with
    | 'n' :: 'u' :: 'l' :: 'l' :: r => some (J.null, r)
    | 't' :: 'r' :: 'u' :: 'e' :: r => some (J.bool true, r)
    | 'f' :: 'a' :: 'l' :: 's' :: 'e' :: r => some (J.bool false, r)
    | '"' :: r =>
      match strBody r with
      | some (s, rest) => some (J.str ⟨s⟩, rest)
      | none => none
    | '[' :: r =>
      match skipWs r with
      | ']' :: rest => some (J.arr [], rest)
      | r2 =>
        match pItems fuel r2 with
        | some (xs, rest) => some (J.arr xs, rest)
        | none => none
    | '\x7b' :: r =>
      match skipWs r with
      | '\x7d' :: rest => some (J.obj [], rest)
      | r2 =>
        match pMembers fuel r2 with
        | some (ms, rest) => some (J.obj ms, rest)
        | none => none
    | '-' :: r =>
      match digitsSpan r with
      | ([], _) => none
      | (ds, rest) =>
        if floatFollows rest then none
        else some (J.num (-(digitsToNat ds : Int)), rest)
    | c :: r =>
      if c.isDigit then
        match digitsSpan (c :: r) with
        | (ds, rest) =>
          if floatFollows rest then none
          else some (J.num (digitsToNat ds : Int), rest)
      else none
    | [] => none

/-- Comma-separated array items up to the closing bracket. -/
def pItems : Nat → List Char → Option (List J × List Char)
  | 0, _ => none
  | Nat.succ fuel, cs =>
    match pVal fuel cs with
    | none => none
    | some (v, rest) =>
      match skipWs rest with
      | ',' :: r2 =>
        match pItems fuel r2 with
        | some (xs, rest2) => some (v :: xs, rest2)
        | none => none
      | ']' :: r2 => some ([v], r2)
      | _ => none

/-- Comma-separated object members up to the closing brace. -/
def pMembers : Nat → List Char → Option (List (String × J) × List Char)
  | 0, _ => none
  | Nat.succ fuel, cs =>
    match skipWs cs with
    | '"' :: r =>
      match strBody r with
      | none => none
      | some (k, r2) =>
        match skipWs r2 with
        | ':' :: r3 =>
          match pVal fuel r3 with
          | none => none
          | some (v, r4) =>
            match skipWs r4 with
            | ',' :: r5 =>
              match pMembers fuel r5 with
              | some (ms, r6) => some ((⟨k⟩, v) :: ms, r6)
              | none => none
            | '\x7d' :: r5 => some ([(⟨k⟩, v)], r5)
            | _ => none
        | _ => none
    | _ => none

end

/-- Model of json.loads on one text: decode one JSON value and require
only whitespace after it; none models a raised JSONDecodeError. -/
def jparse (s : String) : Option J :=
  match pVal (2 * s.length + 8) s.data with
  | some (v, rest) =>
    match skipWs rest with
    | [] => some v
    | _ => none
  | none => none

/-! Line splitting.  parse_from_string uses str.splitlines, which breaks
on \n, \r, \r\n and additionally on \x0b, \x0c, \x1c, \x1d, \x1e, \x85,
U+2028 and U+2029.  parse_from_file iterates a text-mode file, which
breaks only on \n after universal-newline translation of \r and \r\n.
File lines keep their trailing newline in Python; since json.loads
ignores surrounding whitespace, lines are modelled with the terminator
stripped, which is unobservable downstream. -/

/-- Characters that str.splitlines treats as line boundaries but
text-mode file iteration does not. -/
def exoticSep (c : Char) : Bool :=
  c = Char.ofNat 11 || c = Char.ofNat 12 || c = Char.ofNat 28 ||
  c = Char.ofNat 29 || c = Char.ofNat 30 || c = Char.ofNat 133 ||
  c = Char.ofNat 8232 || c = Char.ofNat 8233

/-- Any line boundary recognized by str.splitlines. -/
def pySep (c : Char) : Bool :=
  c = '\n' || c = '\r' || exoticSep c

/-- Worker for str.splitlines: acc holds the current line reversed. -/
def splitlinesAux : List Char → List Char → List (List Char)
  | [], acc => if acc.isEmpty then [] else [acc.reverse]
  | '\r' :: '\n' :: rest, acc => acc.reverse :: splitlinesAux rest []
  | c :: rest, acc =>
    if pySep c then acc.reverse :: splitlinesAux rest []
    else splitlinesAux rest (c :: acc)

/-- Python str.splitlines. -/
def pySplitlines (s : String) : List String :=
  (splitlinesAux s.data []).map (fun cs => ⟨cs⟩)

/-- Universal-newline translation done by text-mode file reading:
\r\n and \r become \n. -/
def nlTranslate : List Char → List Char
  | [] => []
  | '\r' :: '\n' :: rest => '\n' :: nlTranslate rest
  | '\r' :: rest => '\n' :: nlTranslate rest
  | c :: rest => c :: nlTranslate rest

/-- Split on \n, dropping the terminator and a final empty piece, as
iterating a Python text file yields (modulo the stripped terminator,
see above). -/
def splitNlAux : List Char → List Char → List (List Char)
  | [], acc => if acc.isEmpty then [] else [acc.reverse]
  | '\n' :: rest, acc => acc.reverse :: splitNlAux rest []
  | c :: rest, acc => splitNlAux rest (c :: acc)

/-- Lines seen by parse_from_file, given the file's contents. -/
def fileLines (s : String) : List String :=
  (splitNlAux (nlTranslate s.data) []).map (fun cs => ⟨cs⟩)

/-! The batch result parser (BatchJob.parse_from_file /
BatchJob.parse_from_string). -/

/-- A response_model: constructing `response_model(**fields)` either
yields an instance or raises a pydantic ValidationError (none). -/
structure RModel (α : Type) where
  ofObj : List (String × J) → Option α

/-- Evaluation of data["response"]["body"]["choices"][0]["message"],
the expression probed by the `if "tool_calls" in ...` test; any lookup
failure is an exception inside the try block. -/
def openaiMsg (data : J) : Option J := do
  let r ← jGet data "response"
  let b ← jGet r "body"
  let cs ← jGet b "choices"
  let c0 ← jIndex0 cs
  jGet c0 "message"

/-- Body of the per-record try block in both parse entry points: some
on a successfully constructed instance, none when any step raises (the
exception is caught by the `except Exception` handler and the raw
record goes to the error list). -/
def processRecord (rm : RModel α) (data : J) : Option α :=
  match openaiMsg data with
  | none => none
  | some msg =>
    match hasKeyO msg "tool_calls" with
    | none => none
    | some true => do
      let tcs ← jGet msg "tool_calls"
      let t0 ← jIndex0 tcs
      let f ← jGet t0 "function"
      let args ← jGet f "arguments"
      let s ← asStr args
      let v ← jparse s
      let fs ← asObj v
      rm.ofObj fs
    | some false => do
      let r ← jGet data "result"
      let m ← jGet r "message"
      let c ← jGet m "content"
      let c0 ← jIndex0 c
      let t ← jGet c0 "text"
      let s ← asStr t
      let v ← jparse s
      let fs ← asObj v
      rm.ofObj fs

/-- The shared per-line loop of both parse entry points.  json.loads on
a line is outside the try block, so a decode failure raises and the
whole call returns nothing (none); otherwise the record is appended to
the parsed or the error list in input order. -/
def processLines (rm : RModel α) : List String → Option (List α × List J)
  | [] => some ([], [])
  | l :: ls =>
    match jparse l with
    | none => none
    | some data =>
      match processLines rm ls with
      | none => none
      | some (res, errs) =>
        match processRecord rm data with
        | some t => some (t :: res, errs)
        | none => some (res, data :: errs)

/-- BatchJob.parse_from_string. -/
def parse_from_string (content : String) (rm : RModel α) :
    Option (List α × List J) :=
  processLines rm (pySplitlines content)

/-- BatchJob.parse_from_file, with the file identified with its
contents. -/
def parse_from_file (content : String) (rm : RModel α) :
    Option (List α × List J) :=
  processLines rm (fileLines content)

/-! The pydantic request models: Function, Tool, AnthropicTool,
RequestBody (with its pre-validation root validator map_tools) and
BatchModel. -/

structure Function where
  name : String
  description : String
  parameters : J

structure Tool where
  type : String
  function : Function

structure AnthropicTool where
  name : String
  description : String
  input_schema : J

/-- The typed tools field: Union[Tool, AnthropicTool]. -/
inductive ToolU where
  | tool (t : Tool)
  | atool (a : AnthropicTool)

/-- Errors raised during model construction. -/
inductive TErr where
  | schemaFormat -- the ValueError raised for an unknown tool format
  | validation -- pydantic ValidationError / KeyError / TypeError
deriving DecidableEq

/-- Validation of the nested function object (pydantic Function model:
string name, string description, parameters required but any value;
extra keys are ignored). -/
def functionOfJ (j : J) : Option Function :=
  match j with
  | J.obj gs =>
    match lookupLast gs "name", lookupLast gs "description",
          lookupLast gs "parameters" with
    | some (J.str n), some (J.str d), some p => some ⟨n, d, p⟩
    | _, _, _ => none
  | _ => none

/-- Construction `Tool(**tool_data)`: requires a string type field and a
valid nested function object; extra keys are ignored. -/
def toolOfData (fs : List (String × J)) : Option Tool :=
  match lookupLast fs "type", lookupLast fs "function" with
  | some (J.str ty), some fj =>
    match functionOfJ fj with
    | some f => some ⟨ty, f⟩
    | none => none
  | _, _ => none

/-- Construction of AnthropicTool from tool_data["name"],
tool_data["description"], tool_data["input_schema"]: a missing key is a
KeyError, a non-string name or description a ValidationError; both are
modelled as none. -/
def anthropicOfData (fs : List (String × J)) : Option AnthropicTool :=
  match lookupLast fs "name", lookupLast fs "description",
        lookupLast fs "input_schema" with
  | some (J.str n), some (J.str d), some isch => some ⟨n, d, isch⟩
  | _, _, _ => none

/-- Classification of one untyped tool object, the loop body of
RequestBody.map_tools: a dict with a "function" key is coerced to Tool,
else a dict with an "input_schema" key to AnthropicTool, else the
ValueError for an unknown tool format is raised.  (Membership tests on
non-dict values, which Python gives string/list semantics, are modelled
as errors; no input in this development exercises them.) -/
def map_tool (td : J) : Except TErr ToolU :=
  match td with
  | J.obj fs =>
    if hasK fs "function" then
      match toolOfData fs with
      | some t => Except.ok (ToolU.tool t)
      | none => Except.error TErr.validation
    else if hasK fs "input_schema" then
      match anthropicOfData fs with
      | some a => Except.ok (ToolU.atool a)
      | none => Except.error TErr.validation
    else Except.error TErr.schemaFormat
  | _ => Except.error TErr.validation

/-- The loop of map_tools over the raw tools list, stopping at the
first raised error. -/
def map_toolList : List J → Except TErr (List ToolU)
  | [] => Except.ok []
  | td :: tds =>
    match map_tool td with
    | Except.error e => Except.error e
    | Except.ok t =>
      match map_toolList tds with
      | Except.error e => Except.error e
      | Except.ok ts => Except.ok (t :: ts)

/-- RequestBody.map_tools on the raw tools entry of the values dict.
The outer Option distinguishes an absent key (values.get returns the
default []) from a present one; the inner Option distinguishes an
explicit None (iterating it raises TypeError) from a list. -/
def map_tools (toolsField : Option (Option (List J))) :
    Except TErr (List ToolU) :=
  match toolsField with
  | none => Except.ok []
  | some none => Except.error TErr.validation
  | some (some tds) => map_toolList tds

/-- Validation of messages: list[dict[str, Any]], every element must be
a dict. -/
def msgsOfJ : List J → Option (List (List (String × J)))
  | [] => some []
  | J.obj fs :: rest =>
    match msgsOfJ rest with
    | some ms => some (fs :: ms)
    | none => none
  | _ :: _ => none

/-- Validation of max_tokens: Optional[int] with default 1000; absent
key takes the default, None is allowed, an int is kept, anything else
is a ValidationError. -/
def mtOfJ : Option J → Option (Option Int)
  | none => some (some 1000)
  | some J.null => some none
  | some (J.num n) => some (some n)
  | some _ => none

/-- Default of temperature, the float 1.0; numbers in this development
are integers and no claim observes float formatting, so the value is
opaque. -/
def floatOne : J := J.num 1

/-- Temperature is carried through opaquely (Optional[float] default
1.0; its numeric validation is not modelled since no claim depends on
it and no input exercises it). -/
def tpOfJ : Option J → J
  | none => floatOne
  | some v => v

/-- Validation of tool_choice: Optional[dict[str, Any]]. -/
def tcOfJ : Option J → Option (Option (List (String × J)))
  | none => some none
  | some J.null => some none
  | some (J.obj fs) => some (some fs)
  | some _ => none

/-- The validated RequestBody model. -/
structure RequestBody where
  model : String
  messages : List (List (String × J))
  max_tokens : Option Int
  temperature : J
  tools : List ToolU
  tool_choice : Option (List (String × J))

/-- Construction RequestBody(**values): the pre-validation root
validator map_tools runs first and replaces the raw tools entry with
typed variants; then the fields are validated. -/
def RequestBody.construct (model : String) (messages : List J)
    (maxTok : Option J) (temp : Option J)
    (toolsField : Option (Option (List J))) (toolChoice : Option J) :
    Except TErr RequestBody :=
  match map_tools toolsField with
  | Except.error e => Except.error e
  | Except.ok ts =>
    match msgsOfJ messages, mtOfJ maxTok, tcOfJ toolChoice with
    | some ms, some mt, some tc =>
      Except.ok ⟨model, ms, mt, tpOfJ temp, ts, tc⟩
    | _, _, _ => Except.error TErr.validation

/-- Serialization of the nested function object. -/
def Function.toJ (f : Function) : J :=
  J.obj [("name", J.str f.name), ("description", J.str f.description),
         ("parameters", f.parameters)]

/-- Serialization of one typed tool, as model_dump_json emits the
actual Union variant's fields. -/
def ToolU.toJ : ToolU → J
  | ToolU.tool t =>
    J.obj [("type", J.str t.type), ("function", t.function.toJ)]
  | ToolU.atool a =>
    J.obj [("name", J.str a.name), ("description", J.str a.description),
           ("input_schema", a.input_schema)]

/-- Serialization of an optional dict field (None becomes null). -/
def optObjJ : Option (List (String × J)) → J
  | none => J.null
  | some fs => J.obj fs

/-- Serialization of max_tokens. -/
def mtJ : Option Int → J
  | none => J.null
  | some n => J.num n

/-- Value-level model_dump of RequestBody (model_dump_json is this
value rendered as text; text encoding and decoding of these values is
mutually inverse and is left to the json library). -/
def RequestBody.toJ (b : RequestBody) : J :=
  J.obj [("model", J.str b.model),
         ("messages", J.arr (b.messages.map J.obj)),
         ("max_tokens", mtJ b.max_tokens),
         ("temperature", b.temperature),
         ("tools", J.arr (b.tools.map ToolU.toJ)),
         ("tool_choice", optObjJ b.tool_choice)]

/-- Reading the raw tools entry back from a decoded JSON object: null
is the declared default None, a JSON array is a list.  (Iterating other
values such as strings is not exercised here and modelled as an
error.) -/
def toolsFieldOfJ : Option J → Except TErr (Option (Option (List J)))
  | none => Except.ok none
  | some J.null => Except.ok (some none)
  | some (J.arr ts) => Except.ok (some (some ts))
  | some _ => Except.error TErr.validation

/-- Construction RequestBody(**data) from a decoded JSON object, the
second leg of the round trip. -/
def RequestBody.fromJ (j : J) : Except TErr RequestBody :=
  match j with
  | J.obj fs =>
    match lookupLast fs "model", lookupLast fs "messages" with
    | some (J.str m), some (J.arr msgs) =>
      match toolsFieldOfJ (lookupLast fs "tools") with
      | Except.error e => Except.error e
      | Except.ok tf =>
        RequestBody.construct m msgs (lookupLast fs "max_tokens")
          (lookupLast fs "temperature") tf (lookupLast fs "tool_choice")
    | _, _ => Except.error TErr.validation
  | _ => Except.error TErr.validation

/-- BatchModel: one line of the batch input file. -/
structure BatchModel where
  custom_id : String
  params : RequestBody

/-! The batch writer (BatchJob.create_from_messages). -/

/-- Whether the first list is an initial segment of the second. -/
def startsList : List Char → List Char → Bool
  | [], _ => true
  | _ :: _, [] => false
  | n :: ns, h :: hs => n = h && startsList ns hs

/-- Whether needle occurs as a contiguous run of hay, the Python
substring test `needle in hay`. -/
def subList (needle : List Char) : List Char → Bool
  | [] => needle.isEmpty
  | c :: rest => startsList needle (c :: rest) || subList needle rest

/-- Python str.lower, character by character (its non-ASCII special
cases are irrelevant here: model ids are ASCII). -/
def lowerStr (s : String) : String :=
  ⟨s.data.map Char.toLower⟩

/-- Provider selection: use_anthropic is the case-insensitive substring
test for "claude" on the model string, computed once per call. -/
def useAnthropic (model : String) : Bool :=
  subList ("claude").data (lowerStr model).data

/-- The caller's structured-output schema, opaque to this core beyond
the fields the external prompting collaborator uses. -/
structure TargetSchema where
  name : String
  description : String
  schemaJson : J

/-- Modelled from the spec: part of the external collaborator
handle_response_model (instructor.process_response, not under src/),
which for generic (OpenAI-style) tool mode encodes the target schema in
the generic tool wire shape with a type/function wrapper. -/
def genericToolJ (s : TargetSchema) : J :=
  J.obj [("type", J.str "function"),
         ("function",
          J.obj [("name", J.str s.name),
                 ("description", J.str s.description),
                 ("parameters", s.schemaJson)])]

/-- Modelled from the spec: part of the external collaborator
handle_response_model, which for Anthropic tool mode encodes the target
schema in the Anthropic tool wire shape with a flat input_schema. -/
def anthropicToolJ (s : TargetSchema) : J :=
  J.obj [("name", J.str s.name),
         ("description", J.str s.description),
         ("input_schema", s.schemaJson)]

/-- Modelled from the spec: the external collaborator
handle_response_model (not under src/) is an opaque function from the
target schema and the provider mode to the provider-specific tool
payload and forced tool-choice payload passed as extra request kwargs
(the Anthropic mode's messages kwarg, popped by the caller, is
omitted). -/
def handle_response_model (s : TargetSchema) (anthropic : Bool) :
    List J × Option J :=
  if anthropic then
    ([anthropicToolJ s],
     some (J.obj [("type", J.str "tool"), ("name", J.str s.name)]))
  else
    ([genericToolJ s],
     some (J.obj [("type", J.str "function"),
                  ("function", J.obj [("name", J.str s.name)])]))

/-- One iteration of the writer loop: build the BatchModel for one
conversation.  The uuid4 custom id is modelled by an injected id stream
applied to the line index (uuid4 collision-freedom becomes an
injectivity hypothesis where distinctness is claimed). -/
def buildRecord (idGen : Nat → String) (i : Nat) (model : String)
    (maxTok temp : Option J) (tools : List J) (tc : Option J)
    (conv : List J) : Except TErr BatchModel :=
  match RequestBody.construct model conv maxTok temp
      (some (some tools)) tc with
  | Except.error e => Except.error e
  | Except.ok body => Except.ok ⟨idGen i, body⟩

/-- The writer loop over the conversations, in input order; a raised
construction error aborts the call.  (In Python the lines already
written remain in the file; the spec leaves that partial state
undefined and no claim here depends on it.) -/
def buildAll (idGen : Nat → String) (i : Nat) (model : String)
    (maxTok temp : Option J) (tools : List J) (tc : Option J) :
    List (List J) → Except TErr (List BatchModel)
  | [] => Except.ok []
  | conv :: rest =>
    match buildRecord idGen i model maxTok temp tools tc conv with
    | Except.error e => Except.error e
    | Except.ok r =>
      match buildAll idGen (i + 1) model maxTok temp tools tc rest with
      | Except.error e => Except.error e
      | Except.ok rs => Except.ok (r :: rs)

/-- BatchJob.create_from_messages: choose the provider mode once from
the model string, derive the tool encoding once per batch, then build
one record per conversation.  The result list is the sequence of lines
written to the output file, in order (the source's two per-record
branches are textually identical, so they are collapsed).  Each element
is serialized as one JSON line via model_dump_json. -/
def create_from_messages (idGen : Nat → String)
    (messages_batch : List (List J)) (model : String)
    (s : TargetSchema) (max_tokens : Option Int) (temperature : J) :
    Except TErr (List BatchModel) :=
  let ua := useAnthropic model
  let pair := handle_response_model s ua
  buildAll idGen 0 model (some (mtJ max_tokens)) (some temperature)
    pair.1 pair.2 messages_batch

/-! Concrete material used by witnesses and counterexamples: a sample
target schema with two fields, and sample batch-output lines. -/

/-- A sample structured-output instance: the caller's target schema has
a string name and an integer age. -/
structure UserT where
  name : String
  age : Int

/-- The sample response_model: construction succeeds exactly on objects
carrying a string name and an integer age. -/
def userModel : RModel UserT :=
  ⟨fun fs =>
    match lookupLast fs "name", lookupLast fs "age" with
    | some (J.str n), some (J.num a) => some ⟨n, a⟩
    | _, _ => none⟩

/-- A well-formed generic (OpenAI-shaped) batch output line whose
arguments payload conforms to the sample schema. -/
def openaiLine : String :=
  "\x7b\"response\": \x7b\"body\": \x7b\"choices\": [\x7b\"message\": \x7b\"tool_calls\": [\x7b\"function\": \x7b\"arguments\": \"\x7b\\\"name\\\": \\\"x\\\", \\\"age\\\": 1\x7d\"\x7d\x7d]\x7d\x7d]\x7d\x7d\x7d"

/-- A well-formed Anthropic-shaped batch output line whose text payload
conforms to the sample schema. -/
def anthLine : String :=
  "\x7b\"result\": \x7b\"message\": \x7b\"content\": [\x7b\"text\": \"\x7b\\\"name\\\": \\\"y\\\", \\\"age\\\": 2\x7d\"\x7d]\x7d\x7d\x7d"

/-- The decoded value of anthLine. -/
def anthData : J :=
  J.obj [("result", J.obj [("message", J.obj [("content",
    J.arr [J.obj [("text",
      J.str ("\x7b\"name\": \"y\", \"age\": 2\x7d"))]])])])]

/-- The decoded value of openaiLine. -/
def openaiData : J :=
  J.obj [("response", J.obj [("body", J.obj [("choices",
    J.arr [J.obj [("message", J.obj [("tool_calls",
      J.arr [J.obj [("function", J.obj [("arguments",
        J.str ("\x7b\"name\": \"x\", \"age\": 1\x7d"))])]])])]])])])]

/-- Claim C1: a record lacking the generic shape is claimed to be
treated as Anthropic-shaped and parsed.  In the code the shape probe
data["response"]["body"]["choices"][0]["message"] itself raises KeyError
inside the try block for any record without a response key, so a
well-formed Anthropic record (whose embedded text is valid JSON
conforming to the target schema, as the second conjunct shows) is
appended to the error list, not the parsed list. -/
theorem C1_anthropic_record_lands_in_errors :
    jparse anthLine = some anthData ∧
    (do
      let r ← jGet anthData "result"
      let m ← jGet r "message"
      let c ← jGet m "content"
      let c0 ← jIndex0 c
      let t ← jGet c0 "text"
      let s ← asStr t
      let v ← jparse s
      let fs ← asObj v
      userModel.ofObj fs) = some ⟨"y", 2⟩ ∧
    parse_from_string anthLine userModel = some ([], [anthData]) ∧
    parse_from_file anthLine userModel = some ([], [anthData]) :=
  ⟨rfl, rfl, rfl, rfl⟩

/-- Helper for C2: a line that fails to decode makes the shared loop
raise, discarding everything. -/
theorem processLines_fatal {α : Type} (rm : RModel α) (ls : List String)
    (h : ∃ l ∈ ls, jparse l = none) : processLines rm ls = none := by
  induction ls with
  | nil => simp at h
  | cons l ls ih =>
    obtain ⟨x, hmem, hnone⟩ := h
    rcases List.mem_cons.mp hmem with rfl | hmem2
    · simp [processLines, hnone]
    · have hrest := ih ⟨x, hmem2, hnone⟩
      unfold processLines
      cases hj : jparse l with
      | none => rfl
      | some d => simp [hrest]

/-- Claim C2: an input line that is not valid JSON aborts the whole
parse call (the json.loads of a line sits outside the try block), for
both entry points, regardless of surrounding valid lines. -/
theorem C2_invalid_line_is_fatal {α : Type} (rm : RModel α)
    (content : String) :
    ((∃ l ∈ pySplitlines content, jparse l = none) →
      parse_from_string content rm = none) ∧
    ((∃ l ∈ fileLines content, jparse l = none) →
      parse_from_file content rm = none) :=
  ⟨fun h => processLines_fatal rm _ h, fun h => processLines_fatal rm _ h⟩

/-- A batch output text with a valid first line and an invalid second
line. -/
def badContent : String := openaiLine ++ "\n" ++ ("not json")

/-- Witness for C2 at a concrete input: the invalid middle line makes
both entry points raise even though the other line is valid. -/
theorem C2_invalid_line_is_fatal_witness :
    parse_from_string badContent userModel = none ∧
    parse_from_file badContent userModel = none :=
  ⟨(C2_invalid_line_is_fatal userModel badContent).1
      ⟨("not json"), by decide, rfl⟩,
   (C2_invalid_line_is_fatal userModel badContent).2
      ⟨("not json"), by decide, rfl⟩⟩

/-- Helper for C3: when every line decodes, the shared loop returns the
successes (in order) and the raw decoded failures (in order). -/
theorem processLines_characterization {α : Type} (rm : RModel α) :
    ∀ (ls : List String) (datas : List J),
    ls.mapM jparse = some datas →
    processLines rm ls =
      some (datas.filterMap (processRecord rm),
            datas.filter (fun d => (processRecord rm d).isNone)) := by
  intro ls
  induction ls with
  | nil =>
    intro datas h
    simp only [List.mapM_nil, pure, Option.some.injEq] at h
    subst h
    rfl
  | cons l ls ih =>
    intro datas h
    rw [List.mapM_cons] at h
    cases hj : jparse l with
    | none => rw [hj] at h; simp at h
    | some d =>
      rw [hj] at h
      cases hm : ls.mapM jparse with
      | none => rw [hm] at h; simp at h
      | some ds =>
        rw [hm] at h
        simp at h
        subst h
        have hrest := ih ds hm
        cases hpr : processRecord rm d with
        | some t =>
          simp [processLines, hj, hrest, hpr, List.filterMap_cons,
            List.filter_cons]
        | none =>
          simp [processLines, hj, hrest, hpr, List.filterMap_cons,
            List.filter_cons]

/-- Claim C3: for a parse call in which every line decodes, each
record's extraction errors are caught locally, the raw decoded record
itself is appended to the error list, processing continues, and both
returned lists preserve input order (successes are the filterMap of the
per-record step over the decoded records, failures the filter of the
records on which that step raises). -/
theorem C3_per_record_errors_isolated {α : Type} (rm : RModel α)
    (content : String) :
    (∀ datas, (pySplitlines content).mapM jparse = some datas →
      parse_from_string content rm =
        some (datas.filterMap (processRecord rm),
              datas.filter (fun d => (processRecord rm d).isNone))) ∧
    (∀ datas, (fileLines content).mapM jparse = some datas →
      parse_from_file content rm =
        some (datas.filterMap (processRecord rm),
              datas.filter (fun d => (processRecord rm d).isNone))) :=
  ⟨fun datas h => processLines_characterization rm _ datas h,
   fun datas h => processLines_characterization rm _ datas h⟩

/-- A batch output mixing a parsable generic record with a record that
fails extraction. -/
def mixedContent : String := openaiLine ++ "\n" ++ ("\x7b\x7d")

set_option maxRecDepth 100000 in
/-- Witness for C3 at a concrete input: the generic record parses, the
empty object fails extraction and lands raw in the error list. -/
theorem C3_per_record_errors_isolated_witness :
    parse_from_string mixedContent userModel =
      some ([⟨"x", 1⟩], [J.obj []]) :=
  (C3_per_record_errors_isolated userModel mixedContent).1
    [openaiData, J.obj []] rfl

/-- Helper for C4: a completed run of the shared loop accounts for
every examined line in exactly one of the two lists. -/
theorem processLines_length {α : Type} (rm : RModel α) :
    ∀ (ls : List String) (res : List α) (errs : List J),
    processLines rm ls = some (res, errs) →
    ls.length = res.length + errs.length := by
  intro ls
  induction ls with
  | nil =>
    intro res errs h
    simp [processLines] at h
    obtain ⟨h1, h2⟩ := h
    subst h1; subst h2
    rfl
  | cons l ls ih =>
    intro res errs h
    unfold processLines at h
    cases hj : jparse l with
    | none => rw [hj] at h; exact absurd h (by simp)
    | some d =>
      rw [hj] at h
      cases hm : processLines rm ls with
      | none => rw [hm] at h; simp at h
      | some pr =>
        obtain ⟨res0, errs0⟩ := pr
        rw [hm] at h
        have hlen := ih res0 errs0 hm
        cases hpr : processRecord rm d with
        | some t =>
          simp [hpr] at h
          obtain ⟨h1, h2⟩ := h
          subst h1; subst h2
          simp only [List.length_cons]
          omega
        | none =>
          simp [hpr] at h
          obtain ⟨h1, h2⟩ := h
          subst h1; subst h2
          simp only [List.length_cons]
          omega

/-- Claim C4: whenever a parse call completes (no fatal decode error),
every examined line lands in exactly one of the two returned lists, so
the number of lines equals len(parsed) + len(errors), for both entry
points. -/
theorem C4_examined_lines_partition {α : Type} (rm : RModel α)
    (content : String) :
    (∀ res errs, parse_from_string content rm = some (res, errs) →
      (pySplitlines content).length = res.length + errs.length) ∧
    (∀ res errs, parse_from_file content rm = some (res, errs) →
      (fileLines content).length = res.length + errs.length) :=
  ⟨fun res errs h => processLines_length rm _ res errs h,
   fun res errs h => processLines_length rm _ res errs h⟩

set_option maxRecDepth 100000 in
/-- Witness for C4 at a concrete input: two lines, one parsed and one
in errors. -/
theorem C4_examined_lines_partition_witness :
    (pySplitlines mixedContent).length = 1 + 1 :=
  (C4_examined_lines_partition userModel mixedContent).1
    [⟨"x", 1⟩] [J.obj []] rfl

/-- Helper: a successful last-wins lookup means the key is present. -/
theorem hasK_of_lookupLast :
    ∀ (fs : List (String × J)) (k : String) (v : J),
    lookupLast fs k = some v → hasK fs k = true := by
  intro fs k v h
  induction fs with
  | nil => simp [lookupLast] at h
  | cons p rest ih =>
    obtain ⟨k2, v2⟩ := p
    unfold lookupLast at h
    cases hr : lookupLast rest k with
    | some r =>
      rw [hr] at h
      simp at h
      subst h
      have h2 := ih hr
      simp [hasK, List.any_cons]
      right
      simpa [hasK] using h2
    | none =>
      rw [hr] at h
      by_cases hk : k2 = k
      · simp [hasK, List.any_cons, hk]
      · simp [hk] at h

/-- Counterexample to claim C5 as stated: an untyped tool object
containing a key whose value holds name, description and parameters is
claimed to classify as the generic Tool variant, but Tool(**tool_data)
also requires a top-level type field (first conjunct: missing type is a
validation error), and the code keys the generic branch on the literal
key "function" (second conjunct: the same wrapper under another key is
the unknown-format error). -/
theorem C5_counterexample :
    map_tool (J.obj [(("function"), J.obj [(("name"), J.str ("f")),
      (("description"), J.str ("d")), (("parameters"), J.null)])]) =
      Except.error TErr.validation ∧
    map_tool (J.obj [(("wrapper"), J.obj [(("name"), J.str ("f")),
      (("description"), J.str ("d")), (("parameters"), J.null)])]) =
      Except.error TErr.schemaFormat :=
  ⟨rfl, rfl⟩

/-- Claim C5 as amended: a tool dict with the literal key "function",
a string type field and a function value holding string name, string
description and a parameters field classifies as the generic Tool with
the nested object's fields; a dict without "function" but with
input_schema plus string name and description classifies as
AnthropicTool from those fields; a dict with neither "function" nor
"input_schema" raises the schema-format error, and envelope
construction with such a tool fails with that error (no partial
envelope). -/
theorem C5_amended_classification :
    (∀ (fs gs : List (String × J)) (ty n d : String) (p : J),
      lookupLast fs ("type") = some (J.str ty) →
      lookupLast fs ("function") = some (J.obj gs) →
      lookupLast gs ("name") = some (J.str n) →
      lookupLast gs ("description") = some (J.str d) →
      lookupLast gs ("parameters") = some p →
      map_tool (J.obj fs) = Except.ok (ToolU.tool ⟨ty, ⟨n, d, p⟩⟩)) ∧
    (∀ (fs : List (String × J)) (n d : String) (isch : J),
      hasK fs ("function") = false →
      lookupLast fs ("name") = some (J.str n) →
      lookupLast fs ("description") = some (J.str d) →
      lookupLast fs ("input_schema") = some isch →
      map_tool (J.obj fs) = Except.ok (ToolU.atool ⟨n, d, isch⟩)) ∧
    (∀ fs : List (String × J),
      hasK fs ("function") = false → hasK fs ("input_schema") = false →
      map_tool (J.obj fs) = Except.error TErr.schemaFormat) ∧
    (∀ (fs : List (String × J)) (model : String) (messages : List J)
        (maxTok temp toolChoice : Option J) (tds : List J),
      hasK fs ("function") = false → hasK fs ("input_schema") = false →
      RequestBody.construct model messages maxTok temp
        (some (some (J.obj fs :: tds))) toolChoice =
        Except.error TErr.schemaFormat) := by
  refine ⟨?_, ?_, ?_, ?_⟩
  · intro fs gs ty n d p h1 h2 h3 h4 h5
    have hf := hasK_of_lookupLast fs ("function") (J.obj gs) h2
    simp [map_tool, hf, toolOfData, h1, h2, functionOfJ, h3, h4, h5]
  · intro fs n d isch hf h1 h2 h3
    have hi := hasK_of_lookupLast fs ("input_schema") isch h3
    simp [map_tool, hf, hi, anthropicOfData, h1, h2, h3]
  · intro fs hf hi
    simp [map_tool, hf, hi]
  · intro fs model messages maxTok temp toolChoice tds hf hi
    simp [RequestBody.construct, map_tools, map_toolList, map_tool,
      hf, hi]

/-- Witness for the amended C5 at concrete inputs: one generic tool
object, one Anthropic tool object, one unknown-shape object both alone
and at the head of an envelope's tools list. -/
theorem C5_amended_classification_witness :
    map_tool (J.obj [(("type"), J.str ("function")),
      (("function"), J.obj [(("name"), J.str ("f")),
        (("description"), J.str ("d")), (("parameters"), J.null)])]) =
      Except.ok (ToolU.tool ⟨("function"), ⟨("f"), ("d"), J.null⟩⟩) ∧
    map_tool (J.obj [(("name"), J.str ("t")),
      (("description"), J.str ("d2")), (("input_schema"), J.null)]) =
      Except.ok (ToolU.atool ⟨("t"), ("d2"), J.null⟩) ∧
    map_tool (J.obj []) = Except.error TErr.schemaFormat ∧
    RequestBody.construct ("m") [] none none (some (some [J.obj []]))
      none = Except.error TErr.schemaFormat :=
  ⟨C5_amended_classification.1 _ _ _ _ _ _ rfl rfl rfl rfl rfl,
   C5_amended_classification.2.1 _ _ _ _ rfl rfl rfl rfl,
   C5_amended_classification.2.2.1 _ rfl rfl,
   C5_amended_classification.2.2.2 _ _ _ _ _ _ _ rfl rfl⟩

/-- Helper: a successfully built record carries the injected id and an
envelope made of the shared validated fields plus its own validated
messages. -/
theorem buildRecord_ok (idGen : Nat → String) (i : Nat) (model : String)
    (maxTok temp : Option J) (tools : List J) (tc : Option J)
    (conv : List J) (r : BatchModel)
    (h : buildRecord idGen i model maxTok temp tools tc conv =
      Except.ok r) :
    r.custom_id = idGen i ∧
    ∃ ms ts mt tcv, msgsOfJ conv = some ms ∧
      map_toolList tools = Except.ok ts ∧
      mtOfJ maxTok = some mt ∧ tcOfJ tc = some tcv ∧
      r.params = ⟨model, ms, mt, tpOfJ temp, ts, tcv⟩ := by
  obtain ⟨cid, params⟩ := r
  unfold buildRecord RequestBody.construct at h
  rw [show map_tools (some (some tools)) = map_toolList tools from rfl]
    at h
  cases hts : map_toolList tools with
  | error e => rw [hts] at h; simp at h
  | ok ts =>
    rw [hts] at h
    cases hms : msgsOfJ conv with
    | none => rw [hms] at h; simp at h
    | some ms =>
      rw [hms] at h
      cases hmt : mtOfJ maxTok with
      | none => rw [hmt] at h; simp at h
      | some mt =>
        rw [hmt] at h
        cases htc : tcOfJ tc with
        | none => rw [htc] at h; simp at h
        | some tcv =>
          rw [htc] at h
          simp at h
          obtain ⟨h1, h2⟩ := h
          exact ⟨h1.symm, ms, ts, mt, tcv, rfl, rfl, rfl, rfl, h2.symm⟩

/-- Helper: the writer loop emits exactly one record per conversation. -/
theorem buildAll_len (idGen : Nat → String) (model : String)
    (maxTok temp : Option J) (tools : List J) (tc : Option J) :
    ∀ (batch : List (List J)) (i : Nat) (recs : List BatchModel),
    buildAll idGen i model maxTok temp tools tc batch = Except.ok recs →
    recs.length = batch.length := by
  intro batch
  induction batch with
  | nil =>
    intro i recs h
    simp [buildAll] at h
    subst h
    rfl
  | cons conv rest ih =>
    intro i recs h
    unfold buildAll at h
    cases hr : buildRecord idGen i model maxTok temp tools tc conv with
    | error e => rw [hr] at h; simp at h
    | ok r =>
      rw [hr] at h
      cases hall : buildAll idGen (i + 1) model maxTok temp tools tc
          rest with
      | error e => rw [hall] at h; simp at h
      | ok rs =>
        rw [hall] at h
        simp at h
        subst h
        simp [ih (i + 1) rs hall]

/-- Helper: the k-th emitted record is built from the k-th conversation
with the shared fields and the id stream at offset i + k. -/
theorem buildAll_get (idGen : Nat → String) (model : String)
    (maxTok temp : Option J) (tools : List J) (tc : Option J) :
    ∀ (batch : List (List J)) (i : Nat) (recs : List BatchModel),
    buildAll idGen i model maxTok temp tools tc batch = Except.ok recs →
    ∀ (k : Nat) (hk : k < recs.length) (hb : k < batch.length),
      (recs.get ⟨k, hk⟩).custom_id = idGen (i + k) ∧
      ∃ ms ts mt tcv, msgsOfJ (batch.get ⟨k, hb⟩) = some ms ∧
        map_toolList tools = Except.ok ts ∧ mtOfJ maxTok = some mt ∧
        tcOfJ tc = some tcv ∧
        (recs.get ⟨k, hk⟩).params = ⟨model, ms, mt, tpOfJ temp, ts, tcv⟩ := by
  intro batch
  induction batch with
  | nil =>
    intro i recs h k hk hb
    simp at hb
  | cons conv rest ih =>
    intro i recs h k hk hb
    unfold buildAll at h
    cases hr : buildRecord idGen i model maxTok temp tools tc conv with
    | error e => rw [hr] at h; simp at h
    | ok r =>
      rw [hr] at h
      cases hall : buildAll idGen (i + 1) model maxTok temp tools tc
          rest with
      | error e => rw [hall] at h; simp at h
      | ok rs =>
        rw [hall] at h
        simp at h
        subst h
        cases k with
        | zero =>
          obtain ⟨hc, ms, ts, mt, tcv, h1, h2, h3, h4, h5⟩ :=
            buildRecord_ok idGen i model maxTok temp tools tc conv r hr
          exact ⟨by simpa using hc, ms, ts, mt, tcv, h1, h2, h3, h4,
            by simpa using h5⟩
        | succ k2 =>
          have hk2 : k2 < rs.length := by simpa using hk
          have hb2 : k2 < rest.length := by simpa using hb
          have hres := ih (i + 1) rs hall k2 hk2 hb2
          have harith : i + 1 + k2 = i + (k2 + 1) := by omega
          rw [harith] at hres
          simpa using hres

/-- Helper: the spec-modelled tool payload always classifies cleanly,
to the variant matching the provider mode. -/
theorem map_toolList_hrm (s : TargetSchema) (ua : Bool) :
    map_toolList (handle_response_model s ua).1 =
      Except.ok
        (if ua then [ToolU.atool ⟨s.name, s.description, s.schemaJson⟩]
         else [ToolU.tool ⟨("function"),
           ⟨s.name, s.description, s.schemaJson⟩⟩]) := by
  cases ua <;> rfl

/-- Helper: the explicitly passed max_tokens value survives validation
unchanged. -/
theorem mtOfJ_mtJ (mt : Option Int) : mtOfJ (some (mtJ mt)) = some mt := by
  cases mt <;> rfl

/-- Helper: every record a create_from_messages call emits carries the
tool list derived once from the provider mode of the model string. -/
theorem create_tools (idGen : Nat → String) (batch : List (List J))
    (model : String) (s : TargetSchema) (mt : Option Int) (tp : J)
    (recs : List BatchModel)
    (h : create_from_messages idGen batch model s mt tp = Except.ok recs) :
    ∀ r ∈ recs, r.params.tools =
      (if useAnthropic model
       then [ToolU.atool ⟨s.name, s.description, s.schemaJson⟩]
       else [ToolU.tool ⟨("function"),
         ⟨s.name, s.description, s.schemaJson⟩⟩]) := by
  intro r hr
  unfold create_from_messages at h
  obtain ⟨⟨k, hk⟩, rfl⟩ := List.mem_iff_get.mp hr
  have hb : k < batch.length := by
    rw [← buildAll_len idGen model (some (mtJ mt)) (some tp)
      (handle_response_model s (useAnthropic model)).1
      (handle_response_model s (useAnthropic model)).2 batch 0 recs h]
    exact hk
  obtain ⟨hc, ms, ts, mt2, tcv, hms, hts, hmt, htc, hparams⟩ :=
    buildAll_get idGen model (some (mtJ mt)) (some tp)
      (handle_response_model s (useAnthropic model)).1
      (handle_response_model s (useAnthropic model)).2 batch 0 recs h
      k hk hb
  rw [hparams]
  have hval := map_toolList_hrm s (useAnthropic model)
  rw [hts] at hval
  simpa using hval

/-- Claim C6: provider selection is the case-insensitive substring
test for the Anthropic marker on the model string, made once per batch:
with model claude-3-opus every emitted record carries the
Anthropic-shaped tool entry, with gpt-4o every record carries the
generic-shaped entry, and for any model all records of one call share
the one chosen format.  (The tool payloads come from the spec-modelled
external collaborator handle_response_model.) -/
theorem C6_provider_selection (idGen : Nat → String)
    (batch : List (List J)) (s : TargetSchema) (mt : Option Int)
    (tp : J) :
    useAnthropic ("claude-3-opus") = true ∧
    useAnthropic ("gpt-4o") = false ∧
    (∀ recs, create_from_messages idGen batch ("claude-3-opus") s mt tp =
        Except.ok recs →
      ∀ r ∈ recs, r.params.tools =
        [ToolU.atool ⟨s.name, s.description, s.schemaJson⟩]) ∧
    (∀ recs, create_from_messages idGen batch ("gpt-4o") s mt tp =
        Except.ok recs →
      ∀ r ∈ recs, r.params.tools =
        [ToolU.tool ⟨("function"), ⟨s.name, s.description, s.schemaJson⟩⟩]) ∧
    (∀ model recs, create_from_messages idGen batch model s mt tp =
        Except.ok recs →
      (∀ r ∈ recs, r.params.tools =
        [ToolU.atool ⟨s.name, s.description, s.schemaJson⟩]) ∨
      (∀ r ∈ recs, r.params.tools =
        [ToolU.tool ⟨("function"),
          ⟨s.name, s.description, s.schemaJson⟩⟩])) := by
  refine ⟨rfl, rfl, ?_, ?_, ?_⟩
  · intro recs h r hr
    have hres := create_tools idGen batch ("claude-3-opus") s mt tp recs
      h r hr
    rw [show useAnthropic ("claude-3-opus") = true from rfl] at hres
    simpa using hres
  · intro recs h r hr
    have hres := create_tools idGen batch ("gpt-4o") s mt tp recs h r hr
    rw [show useAnthropic ("gpt-4o") = false from rfl] at hres
    simpa using hres
  · intro model recs h
    cases hua : useAnthropic model with
    | true =>
      left
      intro r hr
      have hres := create_tools idGen batch model s mt tp recs h r hr
      rw [hua] at hres
      simpa using hres
    | false =>
      right
      intro r hr
      have hres := create_tools idGen batch model s mt tp recs h r hr
      rw [hua] at hres
      simpa using hres

/-- A one-message conversation. -/
def convA : List J :=
  [J.obj [(("role"), J.str ("user")), (("content"), J.str ("hi"))]]

/-- A sample target schema for the writer. -/
def schemaS : TargetSchema :=
  ⟨("User"), ("a user"), J.obj [(("x"), J.null)]⟩

/-- A concrete injective id stream standing in for uuid4. -/
def idg : Nat → String := fun n => ⟨List.replicate n 'a'⟩

/-- Helper: the sample id stream is injective. -/
theorem idg_inj : ∀ a b : Nat, idg a = idg b → a = b := by
  intro a b hab
  have h2 : List.replicate a 'a' = List.replicate b 'a' :=
    congrArg String.data hab
  have h3 := congrArg List.length h2
  simpa using h3

/-- The record the writer emits for convA under claude-3-opus. -/
def recC0 : BatchModel :=
  ⟨"", ⟨("claude-3-opus"),
    [[(("role"), J.str ("user")), (("content"), J.str ("hi"))]],
    some 1000, floatOne,
    [ToolU.atool ⟨("User"), ("a user"), J.obj [(("x"), J.null)]⟩],
    some [(("type"), J.str ("tool")), (("name"), J.str ("User"))]⟩⟩

/-- The first record the writer emits for convA under gpt-4o. -/
def recG0 : BatchModel :=
  ⟨"", ⟨("gpt-4o"),
    [[(("role"), J.str ("user")), (("content"), J.str ("hi"))]],
    some 1000, floatOne,
    [ToolU.tool ⟨("function"),
      ⟨("User"), ("a user"), J.obj [(("x"), J.null)]⟩⟩],
    some [(("type"), J.str ("function")),
          (("function"), J.obj [(("name"), J.str ("User"))])]⟩⟩

/-- The second record under gpt-4o: same params, next id. -/
def recG1 : BatchModel := ⟨"a", recG0.params⟩

/-- Witness for C6 at concrete inputs: the claude-3-opus batch carries
the Anthropic-shaped tool entry, the gpt-4o batch the generic one. -/
theorem C6_provider_selection_witness :
    recC0.params.tools =
      [ToolU.atool ⟨("User"), ("a user"), J.obj [(("x"), J.null)]⟩] ∧
    recG0.params.tools =
      [ToolU.tool ⟨("function"),
        ⟨("User"), ("a user"), J.obj [(("x"), J.null)]⟩⟩] :=
  ⟨(C6_provider_selection idg [convA] schemaS (some 1000)
      floatOne).2.2.1 [recC0] rfl recC0 (List.mem_singleton.mpr rfl),
   (C6_provider_selection idg [convA] schemaS (some 1000)
      floatOne).2.2.2.1 [recG0] rfl recG0 (List.mem_singleton.mpr rfl)⟩

/-- Claim C7: a successful create_from_messages call over K
conversations emits exactly K records in input order (record k holds
conversation k's messages), with ids drawn in order from the injected
id stream (distinct under the uuid4 uniqueness assumption, stated as
injectivity), and all records identical in model, max_tokens,
temperature, tools and tool_choice, differing only in messages. -/
theorem C7_one_line_per_conversation (idGen : Nat → String)
    (batch : List (List J)) (model : String) (s : TargetSchema)
    (mt : Option Int) (tp : J) (recs : List BatchModel)
    (h : create_from_messages idGen batch model s mt tp = Except.ok recs)
    (hinj : ∀ a b : Nat, idGen a = idGen b → a = b) :
    recs.length = batch.length ∧
    (∀ (k : Nat) (hk : k < recs.length) (hb : k < batch.length),
      msgsOfJ (batch.get ⟨k, hb⟩) =
        some ((recs.get ⟨k, hk⟩).params.messages) ∧
      (recs.get ⟨k, hk⟩).custom_id = idGen k) ∧
    (∀ (k l : Nat) (hk : k < recs.length) (hl : l < recs.length),
      k ≠ l →
      (recs.get ⟨k, hk⟩).custom_id ≠ (recs.get ⟨l, hl⟩).custom_id) ∧
    (∀ r ∈ recs, r.params.model = model ∧ r.params.max_tokens = mt ∧
      r.params.temperature = tp) ∧
    (∀ r ∈ recs, ∀ r2 ∈ recs, r.params.tools = r2.params.tools ∧
      r.params.tool_choice = r2.params.tool_choice) := by
  unfold create_from_messages at h
  have hlen := buildAll_len idGen model (some (mtJ mt)) (some tp)
    (handle_response_model s (useAnthropic model)).1
    (handle_response_model s (useAnthropic model)).2 batch 0 recs h
  refine ⟨hlen, ?_, ?_, ?_, ?_⟩
  · intro k hk hb
    obtain ⟨hc, ms, ts, mt2, tcv, hms, hts, hmt, htc, hparams⟩ :=
      buildAll_get idGen model (some (mtJ mt)) (some tp)
        (handle_response_model s (useAnthropic model)).1
        (handle_response_model s (useAnthropic model)).2 batch 0 recs h
        k hk hb
    constructor
    · rw [hparams]
      simpa using hms
    · simpa using hc
  · intro k l hk hl hne
    obtain ⟨hck, _⟩ := buildAll_get idGen model (some (mtJ mt)) (some tp)
      (handle_response_model s (useAnthropic model)).1
      (handle_response_model s (useAnthropic model)).2 batch 0 recs h
      k hk (hlen ▸ hk)
    obtain ⟨hcl, _⟩ := buildAll_get idGen model (some (mtJ mt)) (some tp)
      (handle_response_model s (useAnthropic model)).1
      (handle_response_model s (useAnthropic model)).2 batch 0 recs h
      l hl (hlen ▸ hl)
    rw [hck, hcl]
    intro heq
    have h0 := hinj _ _ heq
    omega
  · intro r hr
    obtain ⟨⟨k, hk⟩, rfl⟩ := List.mem_iff_get.mp hr
    obtain ⟨hc, ms, ts, mt2, tcv, hms, hts, hmt, htc, hparams⟩ :=
      buildAll_get idGen model (some (mtJ mt)) (some tp)
        (handle_response_model s (useAnthropic model)).1
        (handle_response_model s (useAnthropic model)).2 batch 0 recs h
        k hk (hlen ▸ hk)
    rw [mtOfJ_mtJ] at hmt
    have hmt2 : mt2 = mt := by simpa using hmt.symm
    subst hmt2
    rw [hparams]
    exact ⟨rfl, rfl, rfl⟩
  · intro r hr r2 hr2
    obtain ⟨⟨k, hk⟩, rfl⟩ := List.mem_iff_get.mp hr
    obtain ⟨⟨l, hl⟩, rfl⟩ := List.mem_iff_get.mp hr2
    obtain ⟨hck, ms, ts, mt2, tcv, hms, hts, hmt, htc, hparams⟩ :=
      buildAll_get idGen model (some (mtJ mt)) (some tp)
        (handle_response_model s (useAnthropic model)).1
        (handle_response_model s (useAnthropic model)).2 batch 0 recs h
        k hk (hlen ▸ hk)
    obtain ⟨hcl, ms2, ts2, mt3, tcv2, hms2, hts2, hmt2, htc2, hparams2⟩ :=
      buildAll_get idGen model (some (mtJ mt)) (some tp)
        (handle_response_model s (useAnthropic model)).1
        (handle_response_model s (useAnthropic model)).2 batch 0 recs h
        l hl (hlen ▸ hl)
    rw [hts] at hts2
    have hts3 : ts = ts2 := by simpa using hts2
    rw [htc] at htc2
    have htc3 : tcv = tcv2 := by simpa using htc2
    rw [hparams, hparams2, hts3, htc3]
    exact ⟨rfl, rfl⟩

/-- Witness for C7 at a concrete input: a two-conversation gpt-4o batch
yields two records with distinct ids. -/
theorem C7_one_line_per_conversation_witness :
    [recG0, recG1].length = [convA, convA].length ∧
    recG0.custom_id ≠ recG1.custom_id := by
  have hmain := C7_one_line_per_conversation idg [convA, convA]
    ("gpt-4o") schemaS (some 1000) floatOne [recG0, recG1] rfl idg_inj
  refine ⟨hmain.1, ?_⟩
  have hne := hmain.2.2.1 0 1 (by decide) (by decide) (by decide)
  simpa using hne

/-- Helper: serializing a typed tool and classifying it again is the
identity. -/
theorem map_tool_toJ (t : ToolU) : map_tool (ToolU.toJ t) = Except.ok t := by
  cases t with
  | tool g => rfl
  | atool a => rfl

/-- Helper: the tools list round-trips through serialization and
re-classification. -/
theorem map_toolList_toJ (ts : List ToolU) :
    map_toolList (ts.map ToolU.toJ) = Except.ok ts := by
  induction ts with
  | nil => rfl
  | cons t ts ih => simp [map_toolList, map_tool_toJ, ih]

/-- Helper: serialized messages re-validate to themselves. -/
theorem msgsOfJ_map (ms : List (List (String × J))) :
    msgsOfJ (ms.map J.obj) = some ms := by
  induction ms with
  | nil => rfl
  | cons m ms ih => simp [msgsOfJ, ih]

/-- Helper: a validated envelope survives dump-then-construct
unchanged. -/
theorem fromJ_toJ (b : RequestBody) :
    RequestBody.fromJ (RequestBody.toJ b) = Except.ok b := by
  obtain ⟨m, ms, mt, tp, ts, tc⟩ := b
  have hstep : RequestBody.fromJ (RequestBody.toJ ⟨m, ms, mt, tp, ts, tc⟩) =
      RequestBody.construct m (ms.map J.obj) (some (mtJ mt)) (some tp)
        (some (some (ts.map ToolU.toJ))) (some (optObjJ tc)) := rfl
  rw [hstep]
  unfold RequestBody.construct
  rw [show map_tools (some (some (ts.map ToolU.toJ))) =
    map_toolList (ts.map ToolU.toJ) from rfl]
  rw [map_toolList_toJ, msgsOfJ_map, mtOfJ_mtJ]
  cases tc <;> rfl

/-- Claim C8: a RequestBody whose tools are generic (the claim's
envelope built from well-formed generic tool objects) serializes to
JSON and reconstructs to an equal envelope, so all its tool entries
reappear in the original order with identical name, description and
parameters. -/
theorem C8_roundtrip (b : RequestBody)
    (h : ∀ t ∈ b.tools, ∃ g, t = ToolU.tool g) :
    RequestBody.fromJ (RequestBody.toJ b) = Except.ok b :=
  fromJ_toJ b

/-- An envelope holding two generic tools. -/
def wBody : RequestBody :=
  ⟨("m"), [[(("role"), J.str ("user"))]], some 5, floatOne,
   [ToolU.tool ⟨("function"), ⟨("f"), ("d"), J.null⟩⟩,
    ToolU.tool ⟨("function"), ⟨("g"), ("e"), J.bool true⟩⟩], none⟩

/-- Witness for C8 at a concrete two-tool envelope. -/
theorem C8_roundtrip_witness :
    RequestBody.fromJ (RequestBody.toJ wBody) = Except.ok wBody :=
  C8_roundtrip wBody (by
    intro t ht
    simp [wBody] at ht
    rcases ht with rfl | rfl
    · exact ⟨_, rfl⟩
    · exact ⟨_, rfl⟩)

/-- A one-line batch output whose only line contains U+2028, a line
boundary for str.splitlines but not for text-mode file iteration. -/
def exoticContent : String := "\"a\u2028b\""

/-- Counterexample to claim C9 as stated: on a file whose contents hold
a U+2028 character inside a JSON string, parse_from_file examines one
line (the whole content decodes, fails extraction, and is returned in
the error list) while parse_from_string splits that line in two at the
U+2028 and raises on the first fragment, so the two entry points
disagree. -/
theorem C9_counterexample :
    parse_from_file exoticContent userModel =
      some ([], [J.str ("a\u2028b")]) ∧
    parse_from_string exoticContent userModel = none ∧
    parse_from_file exoticContent userModel ≠
      parse_from_string exoticContent userModel := by
  refine ⟨rfl, rfl, ?_⟩
  rw [show parse_from_file exoticContent userModel =
    some ([], [J.str ("a\u2028b")]) from rfl]
  rw [show parse_from_string exoticContent userModel =
    (none : Option (List UserT × List J)) from rfl]
  simp

/-- Helper: on inputs free of the splitlines-only separators, the two
line splitters agree. -/
theorem splitNl_eq_splitlines (l : List Char) :
    ∀ acc : List Char, (∀ c ∈ l, exoticSep c = false) →
    splitNlAux (nlTranslate l) acc = splitlinesAux l acc := by
  induction l using nlTranslate.induct with
  | case1 => intro acc hx; rfl
  | case2 rest ih =>
    intro acc hx
    rw [nlTranslate.eq_2, splitlinesAux.eq_2]
    rw [show splitNlAux ('\n' :: nlTranslate rest) acc =
      acc.reverse :: splitNlAux (nlTranslate rest) [] from rfl]
    exact congrArg _ (ih [] (fun c hc => hx c (by simp [hc])))
  | case3 rest h ih =>
    intro acc hx
    rw [nlTranslate.eq_3 rest h]
    rw [splitlinesAux.eq_3 acc ('\x0d') rest
      (fun r1 hc hr => h r1 hr)]
    rw [if_pos (show pySep ('\x0d') = true from rfl)]
    rw [show splitNlAux ('\n' :: nlTranslate rest) acc =
      acc.reverse :: splitNlAux (nlTranslate rest) [] from rfl]
    exact congrArg _ (ih [] (fun c hc => hx c (by simp [hc])))
  | case4 c rest h1 h2 ih =>
    intro acc hx
    rw [nlTranslate.eq_4 c rest h1 h2]
    rw [splitlinesAux.eq_3 acc c rest h1]
    have hex : exoticSep c = false := hx c (by simp)
    have hcr : ¬c = ('\x0d') := fun hh => h2 hh
    by_cases hc : pySep c = true
    · have hcn : c = '\n' := by
        simp [pySep, hex, hcr] at hc
        exact hc
      subst hcn
      rw [if_pos hc]
      rw [show splitNlAux ('\n' :: nlTranslate rest) acc =
        acc.reverse :: splitNlAux (nlTranslate rest) [] from rfl]
      exact congrArg _ (ih [] (fun c hc2 => hx c (by simp [hc2])))
    · rw [if_neg hc]
      have hnn : ¬c = '\n' := by
        intro hh
        subst hh
        simp [pySep] at hc
      have hstep : splitNlAux (c :: nlTranslate rest) acc =
          splitNlAux (nlTranslate rest) (c :: acc) :=
        splitNlAux.eq_3 acc c (nlTranslate rest) (fun hh => hnn hh)
      rw [hstep]
      exact ih (c :: acc) (fun c2 hc2 => hx c2 (by simp [hc2]))

/-- Helper: the two entry points see identical line lists when the
content has no splitlines-only separator. -/
theorem fileLines_eq_pySplitlines (s : String)
    (h : ∀ c ∈ s.data, exoticSep c = false) :
    fileLines s = pySplitlines s := by
  unfold fileLines pySplitlines
  rw [splitNl_eq_splitlines s.data [] h]

/-- Claim C9 as amended: on content free of the characters \x0b, \x0c,
\x1c, \x1d, \x1e, \x85, U+2028 and U+2029 (line boundaries for
str.splitlines but not for text-mode file iteration), parse_from_file
on a file with those contents and parse_from_string on the same text
return the same result; the original claim fails on content containing
such a character (see the counterexample). -/
theorem C9_amended_entry_points_agree {α : Type} (rm : RModel α)
    (content : String)
    (h : ∀ c ∈ content.data, exoticSep c = false) :
    parse_from_file content rm = parse_from_string content rm := by
  unfold parse_from_file parse_from_string
  rw [fileLines_eq_pySplitlines content h]

set_option maxRecDepth 100000 in
/-- Witness for the amended C9 at a concrete two-line input. -/
theorem C9_amended_entry_points_agree_witness :
    parse_from_file mixedContent userModel =
      parse_from_string mixedContent userModel :=
  C9_amended_entry_points_agree userModel mixedContent (by decide)

/-- Claim C10: construction without a tools entry runs the pre-validation
normalizer on the values.get default [], so the envelope's tools field
is the empty list and the serialized envelope holds a "tools": [] entry,
never the declared default None; and passing tools explicitly as None
fails construction, because the normalizer iterates the value. -/
theorem C10_tools_default (model : String) (messages : List J)
    (maxTok temp toolChoice : Option J) :
    (∀ b, RequestBody.construct model messages maxTok temp none
        toolChoice = Except.ok b →
      b.tools = [] ∧
      jGet (RequestBody.toJ b) ("tools") = some (J.arr [])) ∧
    RequestBody.construct model messages maxTok temp (some none)
      toolChoice = Except.error TErr.validation := by
  constructor
  · intro b hb
    unfold RequestBody.construct at hb
    rw [show map_tools (none : Option (Option (List J))) =
      Except.ok [] from rfl] at hb
    cases hms : msgsOfJ messages <;> rw [hms] at hb
    · simp at hb
    · cases hmt : mtOfJ maxTok <;> rw [hmt] at hb
      · simp at hb
      · cases htc : tcOfJ toolChoice <;> rw [htc] at hb
        · simp at hb
        · simp at hb
          subst hb
          exact ⟨rfl, rfl⟩
  · rfl

/-- Witness for C10 at a concrete input: an envelope constructed with
no tools entry gets tools = [] and serializes with "tools": [], while
an explicit None fails. -/
theorem C10_tools_default_witness :
    RequestBody.construct ("m") [] none none none none =
      Except.ok ⟨("m"), [], some 1000, floatOne, [], none⟩ ∧
    (⟨("m"), [], some 1000, floatOne, [], none⟩ : RequestBody).tools
      = [] ∧
    jGet (RequestBody.toJ ⟨("m"), [], some 1000, floatOne, [], none⟩)
      ("tools") = some (J.arr []) ∧
    RequestBody.construct ("m") [] none none (some none) none =
      Except.error TErr.validation :=
  ⟨rfl,
   ((C10_tools_default ("m") [] none none none).1
     ⟨("m"), [], some 1000, floatOne, [], none⟩ rfl).1,
   ((C10_tools_default ("m") [] none none none).1
     ⟨("m"), [], some 1000, floatOne, [], none⟩ rfl).2,
   (C10_tools_default ("m") [] none none none).2⟩

end Batch
